import Mathlib

/-!
Shallow embedding of the candidate-solution / population-evolution core of a
genetic-algorithm library written in Rust (`solution.rs`, `solutions.rs`,
`function.rs`), together with theorems settling a list of claims about it.

Modelling conventions:
* `f64` values are modelled as rationals (`ℚ`).  All arithmetic the claims
  touch (averaging, multiplication by a mutation factor) is exact there.
* Formatting a float with a fixed number of decimal places
  (`format!("{:.p}", v)` in the source) is modelled by the integer obtained
  by rounding `v * 10 ^ p` to the nearest integer: two values produce the
  same formatted string exactly when those integers coincide (the sign of a
  negative zero is idealised away).
* The process-wide random generator is modelled by explicit draw records:
  a draw carries the values the sampler hands back, and theorems add the
  hypotheses that make a draw one the sampler can actually produce.
* A Rust panic (`unwrap` on `None`, explicit `panic!`) is modelled by
  `Option.none` / `Except.error`.
* The population trait operations (`evolve_individuals`, `get_n_fittest`)
  live in the external `genetic_algorithm_traits` crate, outside this
  repository; the generational driver is therefore embedded parametrically
  over them.
-/

/-- Model of `f64_to_rounded_string`: convert a floating point value into a
string with `precision` decimal places (`format!("{:.*}", precision, value)`).
The string is abstracted by its numeric content: the integer nearest to
`value * 10 ^ precision`. -/
def f64_to_rounded_string (value : ℚ) (precision : ℕ) : ℤ :=
  ⌊value * 10 ^ precision + 1 / 2⌋

/-- Model of `f64_to_floating_point_precision_string`: convert a floating
point value into a string with 10 decimal places. -/
def f64_to_floating_point_precision_string (value : ℚ) : ℤ :=
  f64_to_rounded_string value 10

/-- Model of `average`: average two values. -/
def average (value_1 value_2 : ℚ) : ℚ :=
  (value_1 + value_2) / 2

/-- Model of the `Solution` struct: an individual holding the function
values. -/
structure Solution where
  function_values : List ℚ
deriving Repr, DecidableEq

/-- Model of `Solution::get_arguments`: return the function arguments stored
in a solution. -/
def Solution.get_arguments (s : Solution) : List ℚ :=
  s.function_values

/-- Model of `PartialEq for Solution`: compare Solutions by converting the
floating point values to a 10-decimal-places representation as string, then
comparing the strings (componentwise over the zipped value lists, with the
empty solution short-circuit of the source). -/
def Solution.eqSolution (self other : Solution) : Bool :=
  self.function_values.length == other.function_values.length
    && (self.function_values.isEmpty
      || (((self.function_values.zip other.function_values).map fun p =>
            f64_to_floating_point_precision_string p.1
              == f64_to_floating_point_precision_string p.2).all fun b => b))

/-- Model of `Hash for Solution`: the hasher state is fed, in order, the
10-decimal-places string of every function value.  A deterministic hasher is
a function of the data fed to it, so the hash is abstracted by that sequence
of canonical strings. -/
def Solution.hashStream (s : Solution) : List ℤ :=
  s.function_values.map f64_to_floating_point_precision_string

/-- Model of `get_random_elem_from_range` at an integer range `lo..hi`:
`None` when the range is empty, otherwise the element the sampler drew
(the draw is supplied explicitly; theorems hypothesise it lies in range). -/
def get_random_elem_from_range (lo hi : ℕ) (draw : ℕ) : Option ℕ :=
  if lo < hi then some draw else none

/-- One draw of the random source consumed by `Solution::mutate`:
`uniform_sample` is what `get_random_elem_from_range(0.0..1.0)` returned,
`factor_to_mutate` is the factor the `while factor == 1.0` resample loop over
`0.8..1.2` ended with, and `idx_draw` is what the sampler for
`0..function_values.len()` would hand back when that range is non-empty. -/
structure MutateDraw where
  uniform_sample : ℚ
  factor_to_mutate : ℚ
  idx_draw : ℕ
deriving Repr, DecidableEq

/-- Model of `Solution::mutate`: with the sampled uniform value strictly
above `prob`, return the solution unchanged; otherwise multiply the sampled
coordinate by the sampled factor.  The `unwrap` on the index sample of the
possibly-empty range `0..len` is modelled by `Option`: `none` is the panic. -/
def Solution.mutate (self : Solution) (prob : ℚ) (draw : MutateDraw) :
    Option Solution :=
  if draw.uniform_sample > prob then
    some self
  else
    match get_random_elem_from_range 0 self.function_values.length
        draw.idx_draw with
    | none => none
    | some idx_to_mutate =>
      some ⟨self.function_values.enum.map fun p =>
        if p.1 = idx_to_mutate then p.2 * draw.factor_to_mutate else p.2⟩

/-- The length-mismatch condition `Solution::crossover` panics with. -/
inductive CrossoverError where
  | dimensionMismatch (self_len other_len : ℕ)
deriving Repr, DecidableEq

/-- Model of `Solution::crossover`: panic (modelled as `Except.error`) on a
length mismatch, otherwise average the two solutions componentwise. -/
def Solution.crossover (self other : Solution) :
    Except CrossoverError Solution :=
  if self.function_values.length ≠ other.get_arguments.length then
    .error (.dimensionMismatch self.function_values.length
      other.get_arguments.length)
  else
    .ok ⟨(self.function_values.zip other.function_values).map fun p =>
      average p.1 p.2⟩

section GenerationalDriver

variable {Population Rng S : Type}

/-- One generation of `evolve_population`:
`pop.evolve(0.5).get_fittest_population(size_generation, function)`, with the
global random generator threaded explicitly through `evolve` (the objective
`function` is fixed and baked into `get_fittest_population`). -/
def generation_step (evolve : Population → ℚ → Rng → Population × Rng)
    (get_fittest_population : Population → ℕ → Population)
    (size_generation : ℕ) (pr : Population × Rng) : Population × Rng :=
  ((get_fittest_population (evolve pr.1 (1 / 2) pr.2).1 size_generation),
    (evolve pr.1 (1 / 2) pr.2).2)

/-- Model of `evolve_population`: with `n_jobs == 0`, fold the generation
step over `0..n_generations` on a single worker; otherwise spawn `n_jobs`
workers, each folding the step over `0..((n_generations / n_jobs) + 1)` on a
clone of the initial population with its own thread-local generator, take
each worker's `get_n_fittest(size_generation, function)`, and collect the
concatenation into a `Solutions` value via `From<Vec<Solution>>`. -/
def evolve_population (evolve : Population → ℚ → Rng → Population × Rng)
    (get_fittest_population : Population → ℕ → Population)
    (get_n_fittest : Population → ℕ → List S)
    (fromVec : List S → Population)
    (initial_population : Population)
    (n_generations size_generation : ℕ) (n_jobs : ℕ)
    (rng : Rng) (worker_rng : ℕ → Rng) : Population :=
  if n_jobs = 0 then
    ((List.range n_generations).foldl
      (fun pr _ =>
        generation_step evolve get_fittest_population size_generation pr)
      (initial_population, rng)).1
  else
    fromVec (((List.range n_jobs).map fun w =>
      get_n_fittest
        (((List.range (n_generations / n_jobs + 1)).foldl
          (fun pr _ =>
            generation_step evolve get_fittest_population size_generation pr)
          (initial_population, worker_rng w)).1)
        size_generation).flatten)

/-- The multi-worker driver as the spec words it (refinement foil for the
source's `evolve_population`): each worker runs `ceil(n_generations / W)`
generations of the same step, then returns its local top
`size_generation`. -/
def evolve_population_spec_ceil
    (evolve : Population → ℚ → Rng → Population × Rng)
    (get_fittest_population : Population → ℕ → Population)
    (get_n_fittest : Population → ℕ → List S)
    (fromVec : List S → Population)
    (initial_population : Population)
    (n_generations size_generation : ℕ) (n_jobs : ℕ)
    (worker_rng : ℕ → Rng) : Population :=
  fromVec (((List.range n_jobs).map fun w =>
    get_n_fittest
      (((List.range ((n_generations + n_jobs - 1) / n_jobs)).foldl
        (fun pr _ =>
          generation_step evolve get_fittest_population size_generation pr)
        (initial_population, worker_rng w)).1)
      size_generation).flatten)

end GenerationalDriver

/-! ## Helper lemmas -/

/-- Folding a constant-step function over `0..n` is the `n`-fold iterate. -/
theorem foldl_range_const_iterate {α : Type} (f : α → α) (init : α) (n : ℕ) :
    (List.range n).foldl (fun a _ => f a) init = f^[n] init := by
  induction n with
  | zero => rfl
  | succ k ih =>
    rw [List.range_succ, List.foldl_append, ih, Function.iterate_succ_apply']
    rfl

/-- The componentwise canonical-string check over a zip, in index form. -/
theorem all_zip_canonical_iff (g : ℚ → ℤ) :
    ∀ (xs ys : List ℚ),
      ((((xs.zip ys).map fun p => g p.1 == g p.2).all fun b => b) = true ↔
        ∀ (i : ℕ) (h1 : i < xs.length) (h2 : i < ys.length), g xs[i] = g ys[i])
  | [], ys => by
    constructor
    · intro _ i h1 _
      exact absurd h1 (Nat.not_lt_zero i)
    · intro _
      rfl
  | x :: xs, [] => by
    constructor
    · intro _ i _ h2
      exact absurd h2 (Nat.not_lt_zero i)
    · intro _
      rfl
  | x :: xs, y :: ys => by
    rw [List.zip_cons_cons, List.map_cons, List.all_cons]
    simp only [Bool.and_eq_true, beq_iff_eq]
    constructor
    · intro h i h1 h2
      match i with
      | 0 => exact h.1
      | i + 1 =>
        exact (all_zip_canonical_iff g xs ys).mp h.2 i
          (Nat.lt_of_succ_lt_succ h1) (Nat.lt_of_succ_lt_succ h2)
    · intro h
      exact ⟨h 0 (Nat.succ_pos _) (Nat.succ_pos _),
        (all_zip_canonical_iff g xs ys).mpr fun i h1 h2 =>
          h (i + 1) (Nat.succ_lt_succ h1) (Nat.succ_lt_succ h2)⟩

/-- `Solution.eqSolution` characterised: equal lengths and componentwise equal
10-decimal canonical strings. -/
theorem eqSolution_spec (a b : Solution) :
    Solution.eqSolution a b = true ↔
      (a.function_values.length = b.function_values.length ∧
        ∀ (i : ℕ) (h1 : i < a.function_values.length)
          (h2 : i < b.function_values.length),
          f64_to_floating_point_precision_string a.function_values[i] =
            f64_to_floating_point_precision_string b.function_values[i]) := by
  unfold Solution.eqSolution
  simp only [Bool.and_eq_true, Bool.or_eq_true, beq_iff_eq]
  constructor
  · rintro ⟨hlen, hrest⟩
    refine ⟨hlen, ?_⟩
    rcases hrest with hemp | hall
    · intro i h1 _
      rw [List.isEmpty_iff.mp hemp] at h1
      exact absurd h1 (Nat.not_lt_zero i)
    · exact (all_zip_canonical_iff _ _ _).mp hall
  · rintro ⟨hlen, hpt⟩
    exact ⟨hlen, Or.inr ((all_zip_canonical_iff _ _ _).mpr hpt)⟩

/-- Canonical equality is reflexive. -/
theorem eqSolution_refl (x : Solution) : Solution.eqSolution x x = true :=
  (eqSolution_spec x x).mpr ⟨rfl, fun _ _ _ => rfl⟩

/-- Averaging a list with itself componentwise gives it back. -/
theorem map_average_zip_self : ∀ l : List ℚ,
    ((l.zip l).map fun p => average p.1 p.2) = l
  | [] => rfl
  | x :: l => by
    rw [List.zip_cons_cons, List.map_cons, map_average_zip_self l]
    unfold average
    norm_num

/-- The enumerate-and-map body of `Solution::mutate` is an update at the
sampled index. -/
theorem enum_map_mutate_eq_set (l : List ℚ) (idx : ℕ) (f : ℚ)
    (h : idx < l.length) :
    (l.enum.map fun p => if p.1 = idx then p.2 * f else p.2) =
      l.set idx (l[idx] * f) := by
  apply List.ext_getElem
  · simp
  · intro i h1 h2
    have hi : i < l.length := by simpa using h1
    rw [List.getElem_map, List.getElem_set]
    simp only [List.enum, List.getElem_enumFrom, Nat.zero_add]
    by_cases hcase : idx = i
    · subst hcase
      simp
    · rw [if_neg (fun hc => hcase hc.symm), if_neg hcase]

/-- Updating a list at an in-range index changes it iff the new value differs
from the old one. -/
theorem set_ne_self_iff (l : List ℚ) (i : ℕ) (h : i < l.length) (v : ℚ) :
    l.set i v ≠ l ↔ v ≠ l[i] := by
  constructor
  · intro hne hv
    apply hne
    apply List.ext_getElem (by simp)
    intro j h1 h2
    rw [List.getElem_set]
    by_cases hij : i = j
    · subst hij
      simpa using hv
    · rw [if_neg hij]
  · intro hv hset
    apply hv
    have := congrArg (fun t => t[i]?) hset
    simpa [List.getElem?_set_self, h, List.getElem?_eq_getElem] using this

/-! ## Claims about `Solution` equality, hashing, crossover -/

/-- C2: two Candidates are equal iff they have the same length and every pair
of corresponding coordinates produces the same string when formatted with
exactly 10 decimal digits; in particular two empty Candidates are equal,
`(1.00000000001, 2, 3) == (1, 2, 3)` holds, and
`(1.0000000001, 2, 3) == (1, 2, 3)` does not. -/
theorem eqSolution_canonical_10_decimals :
    (∀ a b : Solution, Solution.eqSolution a b = true ↔
      (a.function_values.length = b.function_values.length ∧
        ∀ (i : ℕ) (h1 : i < a.function_values.length)
          (h2 : i < b.function_values.length),
          f64_to_floating_point_precision_string a.function_values[i] =
            f64_to_floating_point_precision_string b.function_values[i]))
    ∧ Solution.eqSolution ⟨[]⟩ ⟨[]⟩ = true
    ∧ Solution.eqSolution ⟨[1.00000000001, 2, 3]⟩ ⟨[1, 2, 3]⟩ = true
    ∧ Solution.eqSolution ⟨[1.0000000001, 2, 3]⟩ ⟨[1, 2, 3]⟩ = false := by
  refine ⟨eqSolution_spec, ?_, ?_, ?_⟩ <;>
    norm_num [Solution.eqSolution, f64_to_floating_point_precision_string,
      f64_to_rounded_string]

/-- C9: canonically equal Candidates feed the hasher identical data, hence
hash identically. -/
theorem hash_consistent_with_eq (a b : Solution)
    (h : Solution.eqSolution a b = true) :
    Solution.hashStream a = Solution.hashStream b := by
  obtain ⟨hlen, hpt⟩ := (eqSolution_spec a b).mp h
  unfold Solution.hashStream
  apply List.ext_getElem (by simpa using hlen)
  intro i h1 h2
  rw [List.getElem_map, List.getElem_map]
  exact hpt i (by simpa using h1) (by simpa using h2)

/-- Witness for C9 at the 10th/11th-decimal boundary pair. -/
theorem hash_consistent_with_eq_witness :
    Solution.eqSolution ⟨[1.00000000001, 2, 3]⟩ ⟨[1, 2, 3]⟩ = true ∧
      Solution.hashStream ⟨[1.00000000001, 2, 3]⟩ =
        Solution.hashStream ⟨[1, 2, 3]⟩ :=
  have heq : Solution.eqSolution ⟨[1.00000000001, 2, 3]⟩ ⟨[1, 2, 3]⟩ = true := by
    norm_num [Solution.eqSolution, f64_to_floating_point_precision_string,
      f64_to_rounded_string]
  ⟨heq, hash_consistent_with_eq _ _ heq⟩

/-- C7: crossing a Candidate with itself succeeds and returns a Candidate
equal to it. -/
theorem crossover_self_idempotent (x : Solution) :
    ∃ y : Solution, Solution.crossover x x = Except.ok y ∧
      Solution.eqSolution y x = true := by
  refine ⟨x, ?_, eqSolution_refl x⟩
  unfold Solution.crossover
  rw [if_neg (by simp [Solution.get_arguments])]
  cases x with
  | mk vals => simp [map_average_zip_self]

/-- C6: for equal-length Candidates, crossover succeeds and every coordinate
of the result is the arithmetic mean of the parents' coordinates. -/
theorem crossover_coordinatewise_mean (a b : Solution)
    (h : a.function_values.length = b.function_values.length) :
    ∃ c : Solution, Solution.crossover a b = Except.ok c ∧
      c.function_values.length = a.function_values.length ∧
      ∀ (i : ℕ) (h1 : i < a.function_values.length)
        (h2 : i < b.function_values.length)
        (h3 : i < c.function_values.length),
        c.function_values[i] =
          (a.function_values[i] + b.function_values[i]) / 2 := by
  refine ⟨⟨(a.function_values.zip b.function_values).map fun p =>
    average p.1 p.2⟩, ?_, ?_, ?_⟩
  · unfold Solution.crossover
    rw [if_neg (by simp [Solution.get_arguments, h])]
  · simp [h]
  · intro i h1 h2 h3
    simp only [List.getElem_map, List.getElem_zip, average]

/-- Witness for C6: `crossover((12,3,9), (7,6,13))` averages to
`(9.5, 4.5, 11.0)`. -/
theorem crossover_coordinatewise_mean_witness :
    (∃ c : Solution,
      Solution.crossover ⟨[12, 3, 9]⟩ ⟨[7, 6, 13]⟩ = Except.ok c ∧
      c.function_values.length =
        (Solution.mk [12, 3, 9]).function_values.length ∧
      ∀ (i : ℕ) (h1 : i < (Solution.mk [12, 3, 9]).function_values.length)
        (h2 : i < (Solution.mk [7, 6, 13]).function_values.length)
        (h3 : i < c.function_values.length),
        c.function_values[i] =
          ((Solution.mk [12, 3, 9]).function_values[i] +
            (Solution.mk [7, 6, 13]).function_values[i]) / 2) ∧
    Solution.crossover ⟨[12, 3, 9]⟩ ⟨[7, 6, 13]⟩ =
      Except.ok ⟨[9.5, 4.5, 11.0]⟩ := by
  constructor
  · exact crossover_coordinatewise_mean ⟨[12, 3, 9]⟩ ⟨[7, 6, 13]⟩ rfl
  · norm_num [Solution.crossover, Solution.get_arguments, average]

/-- C8: crossover of Candidates of different lengths fails with the
length-mismatch condition carrying both lengths; for equal lengths it
returns a Candidate. -/
theorem crossover_length_mismatch_check (a b : Solution) :
    (a.function_values.length ≠ b.function_values.length →
      Solution.crossover a b =
        Except.error (.dimensionMismatch a.function_values.length
          b.function_values.length)) ∧
    (a.function_values.length = b.function_values.length →
      ∃ c : Solution, Solution.crossover a b = Except.ok c) := by
  constructor
  · intro hne
    unfold Solution.crossover
    rw [if_pos (by simpa [Solution.get_arguments] using hne)]
    rfl
  · intro h
    refine ⟨⟨(a.function_values.zip b.function_values).map fun p =>
      average p.1 p.2⟩, ?_⟩
    unfold Solution.crossover
    rw [if_neg (by simp [Solution.get_arguments, h])]

/-- Witness for C8: a 2-vs-3 mismatch and an equal-length success. -/
theorem crossover_length_mismatch_check_witness :
    Solution.crossover ⟨[12, 3]⟩ ⟨[7, 6, 13]⟩ =
      Except.error (.dimensionMismatch 2 3) ∧
    ∃ c : Solution, Solution.crossover ⟨[1]⟩ ⟨[2]⟩ = Except.ok c :=
  ⟨(crossover_length_mismatch_check ⟨[12, 3]⟩ ⟨[7, 6, 13]⟩).1 (by decide),
    (crossover_length_mismatch_check ⟨[1]⟩ ⟨[2]⟩).2 rfl⟩

/-! ## Claims about `Solution::mutate` -/

/-- C4 counterexample: the sampler for `0.0..1.0` can return exactly `0.0`,
and `0.0 > 0.0` is false, so `mutate(x, 0.0)` takes the mutation branch on
that draw and the result is not equal to `x`. -/
theorem mutate_zero_prob_counterexample :
    Solution.mutate ⟨[1]⟩ 0 ⟨0, 4 / 5, 0⟩ = some ⟨[4 / 5]⟩ ∧
    Solution.eqSolution ⟨[4 / 5]⟩ ⟨[1]⟩ = false ∧
    (0 : ℚ) ≤ 0 ∧ (0 : ℚ) < 1 ∧
    (4 / 5 : ℚ) ≤ 4 / 5 ∧ (4 / 5 : ℚ) < 6 / 5 ∧ (4 / 5 : ℚ) ≠ 1 ∧
    (0 : ℕ) < 1 := by
  refine ⟨?_, ?_, ?_, ?_, ?_, ?_, ?_, ?_⟩
  · norm_num [Solution.mutate, get_random_elem_from_range]
  · norm_num [Solution.eqSolution, f64_to_floating_point_precision_string,
      f64_to_rounded_string]
  all_goals norm_num

/-- C4 amended: `mutate(x, 0.0)` returns `x` on every draw whose uniform
sample is strictly positive; only the draw sampling exactly `0.0` takes the
mutation branch. -/
theorem mutate_zero_prob_keeps_solution (x : Solution) (draw : MutateDraw)
    (hu : 0 < draw.uniform_sample) :
    Solution.mutate x 0 draw = some x := by
  unfold Solution.mutate
  rw [if_pos hu]

/-- Witness for the amended C4. -/
theorem mutate_zero_prob_keeps_solution_witness :
    (0 : ℚ) < 1 / 2 ∧
      Solution.mutate ⟨[1, 2, 3]⟩ 0 ⟨1 / 2, 4 / 5, 0⟩ = some ⟨[1, 2, 3]⟩ :=
  ⟨by norm_num, mutate_zero_prob_keeps_solution ⟨[1, 2, 3]⟩ ⟨1 / 2, 4 / 5, 0⟩
    (by norm_num)⟩

/-- C5 counterexample: mutating the all-zero one-element Candidate with
probability `1.0` multiplies the chosen zero coordinate by the factor and
leaves it bit-for-bit `0`, so no coordinate of the result differs from the
input (the claim demands exactly one differing coordinate); all draw parts
lie in their samplers' ranges. -/
theorem mutate_single_change_counterexample :
    Solution.mutate ⟨[0]⟩ 1 ⟨0, 4 / 5, 0⟩ = some ⟨[0]⟩ ∧
    (0 : ℚ) ≤ 0 ∧ (0 : ℚ) < 1 ∧
    (4 / 5 : ℚ) ≤ 4 / 5 ∧ (4 / 5 : ℚ) < 6 / 5 ∧ (4 / 5 : ℚ) ≠ 1 ∧
    (0 : ℕ) < 1 := by
  refine ⟨?_, ?_, ?_, ?_, ?_, ?_, ?_⟩
  · norm_num [Solution.mutate, get_random_elem_from_range]
  all_goals norm_num

/-- C5 amended: for a non-empty Candidate and any draw the `[0,1)` /
`[0.8,1.2)`-samplers can produce, `mutate(x, 1.0)` updates exactly the chosen
coordinate to its product with the factor, all other coordinates bit-for-bit
unchanged; the result differs from `x` iff the chosen coordinate was
nonzero. -/
theorem mutate_prob_one_updates_chosen_coordinate (x : Solution)
    (draw : MutateDraw)
    (hu0 : 0 ≤ draw.uniform_sample) (hu1 : draw.uniform_sample < 1)
    (hidx : draw.idx_draw < x.function_values.length)
    (hf0 : 4 / 5 ≤ draw.factor_to_mutate)
    (hf1 : draw.factor_to_mutate < 6 / 5)
    (hfne : draw.factor_to_mutate ≠ 1) :
    ∃ y : Solution, Solution.mutate x 1 draw = some y ∧
      y.function_values = x.function_values.set draw.idx_draw
        (x.function_values[draw.idx_draw] * draw.factor_to_mutate) ∧
      (y.function_values ≠ x.function_values ↔
        x.function_values[draw.idx_draw] ≠ 0) := by
  refine ⟨⟨x.function_values.set draw.idx_draw
    (x.function_values[draw.idx_draw] * draw.factor_to_mutate)⟩, ?_, rfl, ?_⟩
  · unfold Solution.mutate get_random_elem_from_range
    rw [if_neg (fun hgt => absurd (lt_trans hgt hu1) (lt_irrefl 1)),
      if_pos (Nat.lt_of_le_of_lt (Nat.zero_le _) hidx)]
    exact congrArg some
      (congrArg Solution.mk (enum_map_mutate_eq_set _ _ _ hidx))
  · rw [set_ne_self_iff _ _ hidx]
    constructor
    · intro hne h0
      exact hne (by rw [h0, zero_mul])
    · intro h0 hmul
      exact hfne ((mul_eq_left₀ h0).mp hmul)

/-- Witness for the amended C5 at `x = (1,2,3)`, index 1, factor 0.8. -/
theorem mutate_prob_one_updates_chosen_coordinate_witness :
    (0 : ℚ) ≤ 0 ∧ (0 : ℚ) < 1 ∧ (1 : ℕ) < 3 ∧
    (4 / 5 : ℚ) ≤ 4 / 5 ∧ (4 / 5 : ℚ) < 6 / 5 ∧ (4 / 5 : ℚ) ≠ 1 ∧
    ∃ y : Solution, Solution.mutate ⟨[1, 2, 3]⟩ 1 ⟨0, 4 / 5, 1⟩ = some y ∧
      y.function_values =
        ([1, 2, 3] : List ℚ).set 1 (([1, 2, 3] : List ℚ)[1] * (4 / 5 : ℚ)) ∧
      (y.function_values ≠ ([1, 2, 3] : List ℚ) ↔
        ([1, 2, 3] : List ℚ)[1] ≠ (0 : ℚ)) :=
  ⟨le_refl 0, by norm_num, by norm_num, le_refl _, by norm_num, by norm_num,
    mutate_prob_one_updates_chosen_coordinate ⟨[1, 2, 3]⟩ ⟨0, 4 / 5, 1⟩
      (le_refl 0) (by norm_num) (by norm_num) (le_refl _) (by norm_num)
      (by norm_num)⟩

/-- C10: mutating an empty Candidate panics whenever the sampled uniform
value does not exceed the probability: the mutation branch samples an index
from the empty range `0..0`, gets `None`, and unwraps it. -/
theorem mutate_empty_candidate_panics (x : Solution) (prob : ℚ)
    (draw : MutateDraw) (hx : x.function_values = [])
    (h : ¬ draw.uniform_sample > prob) :
    Solution.mutate x prob draw = none := by
  unfold Solution.mutate get_random_elem_from_range
  rw [if_neg h, hx]
  rfl

/-- Witness for C10 at probability 1 and uniform sample 1/2. -/
theorem mutate_empty_candidate_panics_witness :
    (⟨[]⟩ : Solution).function_values = [] ∧
    ¬ (1 / 2 : ℚ) > 1 ∧
    Solution.mutate ⟨[]⟩ 1 ⟨1 / 2, 4 / 5, 0⟩ = none :=
  ⟨rfl, by norm_num,
    mutate_empty_candidate_panics ⟨[]⟩ 1 ⟨1 / 2, 4 / 5, 0⟩ rfl (by norm_num)⟩

/-! ## Claims about the generational driver -/

/-- C3: in single-worker mode the driver returns exactly the
`n_generations`-fold iterate of the generation step, and the initial
population unchanged when `n_generations = 0`. -/
theorem evolve_population_single_worker {Population Rng S : Type}
    (evolve : Population → ℚ → Rng → Population × Rng)
    (get_fittest_population : Population → ℕ → Population)
    (get_n_fittest : Population → ℕ → List S)
    (fromVec : List S → Population)
    (initial_population : Population)
    (n_generations size_generation n_jobs : ℕ)
    (rng : Rng) (worker_rng : ℕ → Rng)
    (h : n_jobs = 0) :
    evolve_population evolve get_fittest_population get_n_fittest fromVec
        initial_population n_generations size_generation n_jobs rng
        worker_rng =
      ((generation_step evolve get_fittest_population
          size_generation)^[n_generations] (initial_population, rng)).1 ∧
    (n_generations = 0 →
      evolve_population evolve get_fittest_population get_n_fittest fromVec
          initial_population n_generations size_generation n_jobs rng
          worker_rng = initial_population) := by
  subst h
  unfold evolve_population
  rw [if_pos rfl]
  constructor
  · rw [foldl_range_const_iterate]
  · intro h0
    subst h0
    rfl

/-- Witness for C3 on a counter population with 3 generations. -/
theorem evolve_population_single_worker_witness :
    (0 : ℕ) = 0 ∧
    (evolve_population (fun (p : ℕ) (_ : ℚ) (r : Unit) => (p + 1, r))
        (fun p _ => p) (fun p _ => [p]) (fun l => l.sum) 0 3 5 0 ()
        (fun _ => ()) =
      ((generation_step (fun (p : ℕ) (_ : ℚ) (r : Unit) => (p + 1, r))
          (fun p _ => p) 5)^[3] (0, ())).1 ∧
    (3 = 0 →
      evolve_population (fun (p : ℕ) (_ : ℚ) (r : Unit) => (p + 1, r))
          (fun p _ => p) (fun p _ => [p]) (fun l => l.sum) 0 3 5 0 ()
          (fun _ => ()) = 0)) :=
  ⟨rfl, evolve_population_single_worker _ _ _ _ _ _ _ _ _ _ rfl⟩

/-- C1 counterexample: with `n_generations = 4` and `W = 2` workers, the
source's workers each run `4 / 2 + 1 = 3` generations, not
`ceil(4 / 2) = 2`.  Instantiated on a generation-counting population, the
source driver and the spec-worded ceiling driver disagree: `3 + 3 = 6`
versus `2 + 2 = 4`. -/
theorem evolve_population_ceil_counterexample :
    evolve_population (fun (p : ℕ) (_ : ℚ) (r : Unit) => (p + 1, r))
        (fun p _ => p) (fun p _ => [p]) (fun l => l.sum) 0 4 1 2 ()
        (fun _ => ()) = 6 ∧
    evolve_population_spec_ceil (fun (p : ℕ) (_ : ℚ) (r : Unit) => (p + 1, r))
        (fun p _ => p) (fun p _ => [p]) (fun l => l.sum) 0 4 1 2
        (fun _ => ()) = 4 ∧
    (6 : ℕ) ≠ 4 :=
  ⟨rfl, rfl, by decide⟩

/-- C1 amended: in multi-worker mode the driver spawns `n_jobs` workers, each
starting from the identical initial population with its own generator, each
running exactly `n_generations / n_jobs + 1` (floor division) generations of
the step, and returning its local top `size_generation` via `get_n_fittest`;
the worker results are concatenated and collected. -/
theorem evolve_population_multi_worker {Population Rng S : Type}
    (evolve : Population → ℚ → Rng → Population × Rng)
    (get_fittest_population : Population → ℕ → Population)
    (get_n_fittest : Population → ℕ → List S)
    (fromVec : List S → Population)
    (initial_population : Population)
    (n_generations size_generation n_jobs : ℕ)
    (rng : Rng) (worker_rng : ℕ → Rng)
    (h : n_jobs ≠ 0) :
    evolve_population evolve get_fittest_population get_n_fittest fromVec
        initial_population n_generations size_generation n_jobs rng
        worker_rng =
      fromVec (((List.range n_jobs).map fun w =>
        get_n_fittest
          (((generation_step evolve get_fittest_population
              size_generation)^[n_generations / n_jobs + 1])
            (initial_population, worker_rng w)).1
          size_generation).flatten) := by
  unfold evolve_population
  rw [if_neg h]
  simp only [foldl_range_const_iterate]

/-- Witness for the amended C1 with 2 workers and 4 generations. -/
theorem evolve_population_multi_worker_witness :
    (2 : ℕ) ≠ 0 ∧
    evolve_population (fun (p : ℕ) (_ : ℚ) (r : Unit) => (p + 1, r))
        (fun p _ => p) (fun p _ => [p]) (fun l => l.sum) 0 4 1 2 ()
        (fun _ => ()) =
      (((List.range 2).map fun w =>
        [(((generation_step (fun (p : ℕ) (_ : ℚ) (r : Unit) => (p + 1, r))
            (fun p _ => p) 1)^[4 / 2 + 1]) (0, ())).1]).flatten).sum :=
  ⟨by decide,
    evolve_population_multi_worker _ _ _ _ _ _ _ _ _ _ (by decide)⟩
